import Mathlib

/-!
Shallow embedding of `main.py` (Card Checker API) and proofs about it.

Modelling conventions:
* Python exceptions are values of `PyExc`; fallible code returns `Except PyExc α`.
* JSON values returned by `resp.json()` are modelled by `PyVal`; Python's
  `dict.get(key, default)` (which raises `AttributeError` on non-dicts) is
  `PyVal.getD`.
* `time.time()` results are modelled as integers (seconds).
* HTTP traffic is modelled by environments: each outbound request's response
  (per retry attempt) is supplied by the environment.  HTML scraping with
  BeautifulSoup is abstracted: the environment supplies the already-extracted
  pieces the code reads from a response body (`__VIEWSTATE`-style hidden
  inputs and the text of the `<span class="error">` element, when present).
* Unicode digits of `re` are modelled as ASCII digits (`Char.isDigit`).
-/

/-- Python exception values that matter to `main.py`. -/
inductive PyExc where
  | httpException (status_code : Nat) (detail : String)
  | valueError (msg : String)
  | attrError (msg : String)
  | typeError (msg : String)
  | httpxTimeout (msg : String)
  | httpxConnectError (msg : String)
  | other (msg : String)
deriving DecidableEq, Repr

/-- `str(e)` for the exceptions above (starlette's `HTTPException.__str__` is
`f"{status_code}: {detail}"`). -/
def PyExc.str : PyExc → String
  | .httpException c d => toString c ++ ": " ++ d
  | .valueError m => m
  | .attrError m => m
  | .typeError m => m
  | .httpxTimeout m => m
  | .httpxConnectError m => m
  | .other m => m

/-- Python/JSON values (the shapes `resp.json()` can produce). -/
inductive PyVal where
  | none
  | bool (b : Bool)
  | int (n : Int)
  | str (s : String)
  | list (l : List PyVal)
  | dict (l : List (String × PyVal))

/-- Python truthiness (`if x:`) for `PyVal`. -/
def PyVal.truthy : PyVal → Bool
  | .none => false
  | .bool b => b
  | .int n => n != 0
  | .str s => s != ""
  | .list l => !l.isEmpty
  | .dict l => !l.isEmpty

/-- `x is None`. -/
def PyVal.isNone : PyVal → Bool
  | .none => true
  | _ => false

/-- Python `x == n` for an integer literal `n` (`True == 1` holds in Python,
so booleans compare as 0/1; other types compare unequal to ints). -/
def PyVal.eqInt : PyVal → Int → Bool
  | .int m, n => m == n
  | .bool b, n => (if b then (1 : Int) else 0) == n
  | _, _ => false

/-- Python `x == s` for a string literal `s`. -/
def PyVal.eqStr : PyVal → String → Bool
  | .str t, s => t == s
  | _, _ => false

/-- `v.get(k, d)`: on a dict returns the stored value or the default `d`;
on any other value (`None`, a list, ...) Python raises `AttributeError`. -/
def PyVal.getD (v : PyVal) (k : String) (d : PyVal) : Except PyExc PyVal :=
  match v with
  | .dict l => .ok ((l.lookup k).getD d)
  | _ => .error (.attrError "object has no attribute get")

/-- `v.get(k)` — default `None`, as in Python. -/
def pyGet (v : PyVal) (k : String) : Except PyExc PyVal :=
  v.getD k PyVal.none

/-! ## Session cache (`class SessionCache`) -/

/-- A cached session record: the dict built at `main.py:753-762`, plus the
`"timestamp"` key that `save_session` adds (absent right after creation). -/
structure SessionData where
  user_agent : String
  transaction_id : PyVal
  viewstate : Option String
  viewstategenerator : Option String
  eventvalidation : Option String
  cookies : List (String × String)
  cart_id : PyVal
  customer_id : PyVal
  timestamp : Option Int

/-- The in-memory `self.sessions` dict, keyed by the string store key. -/
abbrev CacheMap := List (String × SessionData)

/-- The cache file on disk: `none` = file does not exist; `some (.error e)` =
file exists but reading/parsing it fails; `some (.ok m)` = parsed content. -/
abbrev DiskState := Option (Except String CacheMap)

/-- A `SessionCache` object: its `sessions` dict and the backing file. -/
structure SessionCacheState where
  sessions : CacheMap
  disk : DiskState

/-- Remove a key from the dict (`del self.sessions[store_key]`). -/
def eraseKey (m : CacheMap) (k : String) : CacheMap :=
  m.filter fun p => !(p.1 == k)

/-- `self.sessions[store_key] = v` (dict assignment replaces the key). -/
def setKey (m : CacheMap) (k : String) (v : SessionData) : CacheMap :=
  (k, v) :: eraseKey m k

/-- `load_cache`: if the file exists, try to load it; on any exception the
in-memory dict is reset to `{}`; if the file does not exist the current
dict is kept. Never raises. -/
def load_cache (sessions : CacheMap) (disk : DiskState) : CacheMap :=
  match disk with
  | Option.none => sessions
  | some (.ok m) => m
  | some (.error _) => []

/-- `save_cache`: try to write `sessions` to the file; any exception is
swallowed (`writeFails` says whether the write raises). Never raises. -/
def save_cache (sessions : CacheMap) (disk : DiskState) (writeFails : Bool) :
    DiskState :=
  if writeFails then disk else some (.ok sessions)

/-- `SessionCache.__init__`: empty dict, then `load_cache`. -/
def SessionCache.init (disk : DiskState) : SessionCacheState :=
  { sessions := load_cache [] disk, disk := disk }

/-- `get_session`: return the cached session for `str(store_id)` when it is
less than 1800 seconds old (`time.time() - session.get("timestamp", 0) < 1800`),
delete it and return `None` when it has expired, return `None` when absent. -/
def get_session (st : SessionCacheState) (now : Int) (store_id : Nat) :
    Option SessionData × SessionCacheState :=
  let store_key := toString store_id
  match st.sessions.lookup store_key with
  | some session =>
    if now - (session.timestamp.getD 0) < 1800 then
      (some session, st)
    else
      (Option.none, { st with sessions := eraseKey st.sessions store_key })
  | Option.none => (Option.none, st)

/-- `save_session`: set `session_data["timestamp"] = time.time()`, store it
under `str(store_id)`, then `save_cache` (whose failures are swallowed). -/
def save_session (st : SessionCacheState) (store_id : Nat)
    (session_data : SessionData) (now : Int) (writeFails : Bool) :
    SessionCacheState :=
  let store_key := toString store_id
  let session_data := { session_data with timestamp := some now }
  let sessions := setKey st.sessions store_key session_data
  { sessions := sessions, disk := save_cache sessions st.disk writeFails }

/-! ## `parse_card` -/

/-- One left-to-right scan collecting maximal digit runs; `acc` is the run
currently being read (in order). -/
def digitRunsAcc : List Char → List Char → List (List Char)
  | [], acc => if acc.isEmpty then [] else [acc]
  | c :: cs, acc =>
    if c.isDigit then
      digitRunsAcc cs (acc ++ [c])
    else
      if acc.isEmpty then digitRunsAcc cs [] else acc :: digitRunsAcc cs []

/-- Maximal runs of digits in a character list: `re.findall(r"\d+", card)`. -/
def digitRuns (l : List Char) : List (List Char) := digitRunsAcc l []

/-- `parse_card`: unpack the first four digit runs; with fewer than four,
the unpacking raises `ValueError` with the fixed format message. -/
def parse_card (card : String) :
    Except PyExc (String × String × String × String) :=
  match digitRuns card.toList with
  | a :: b :: c :: d :: _ => .ok (⟨a⟩, ⟨b⟩, ⟨c⟩, ⟨d⟩)
  | _ => .error (.valueError
      "Card format is incorrect. Expected format: card_number|exp_month|exp_year|cvv")

/-! ## `retry_request` / `request_with_retry` -/

/-- The exception classes passed to `retry_request` in `request_with_retry`:
`(httpx.TimeoutException, httpx.ConnectError)`. -/
def isListedExc : PyExc → Bool
  | .httpxTimeout _ => true
  | .httpxConnectError _ => true
  | _ => false

/-- The loop of `retry_request`'s `wrapper`.  `func attempt` is the outcome of
the wrapped call on the given attempt; `caught e` for a listed exception
retries, any other exception propagates immediately.  Returns the wrapper's
outcome (`.error last` models `raise last_exception`; `.error none` is the
degenerate `raise` of the initial tuple when no attempt ran), the number of
invocations, and the list of sleep durations performed. -/
def retryGo {α : Type} (func : Nat → Except PyExc α) (listed : PyExc → Bool)
    (delay : Nat) : Nat → Nat → Option PyExc →
    (Except (Option PyExc) α) × Nat × List Nat
  | 0, _, last => (.error last, 0, [])
  | remaining + 1, attempt, _ =>
    match func attempt with
    | .ok a => (.ok a, 1, [])
    | .error e =>
      if listed e then
        match remaining with
        | 0 => (.error (some e), 1, [])
        | r + 1 =>
          let (res, calls, sleeps) :=
            retryGo func listed delay (r + 1) (attempt + 1) (some e)
          (res, calls + 1, delay :: sleeps)
      else (.error (some e), 1, [])

/-- `retry_request(attempts, delay, exceptions)` applied to `func`. -/
def retry_request {α : Type} (attempts delay : Nat) (listed : PyExc → Bool)
    (func : Nat → Except PyExc α) :
    (Except (Option PyExc) α) × Nat × List Nat :=
  retryGo func listed delay attempts 1 Option.none

/-- `request_with_retry`: `retry_request(attempts=3, delay=1,
exceptions=(httpx.TimeoutException, httpx.ConnectError))`. -/
def request_with_retry {α : Type} (func : Nat → Except PyExc α) :
    (Except (Option PyExc) α) × Nat × List Nat :=
  retry_request 3 1 isListedExc func

/-! ## Response classification (`main.py:198-210` and `main.py:817-829`) -/

/-- `sep.isPrefixOf l`-style check plus recursion: Python's substring test
`sep in t` on character lists. -/
def hasInfix (sep : List Char) : List Char → Bool
  | [] => sep.isEmpty
  | c :: cs => sep.isPrefixOf (c :: cs) || hasInfix sep cs

/-- Python `needle in hay` for strings. -/
def pyIn (needle hay : String) : Bool :=
  hasInfix needle.toList hay.toList

/-- `t.split(sep, 1)` at the first occurrence of `sep`: `some (before, after)`
when `sep` occurs in `t`, `none` otherwise. -/
def splitFirst (sep : List Char) : List Char → Option (List Char × List Char)
  | [] => if sep.isEmpty then some ([], []) else Option.none
  | c :: cs =>
    if sep.isPrefixOf (c :: cs) then
      some ([], (c :: cs).drop sep.length)
    else
      (splitFirst sep cs).map fun p => (c :: p.1, p.2)

/-- The error-span handling shared by both classification sites:
`error_text.split(": ", 1)[1] if ": " in error_text else error_text`. -/
def stripErrMessage (error_text : String) : String :=
  match splitFirst [':', ' '] error_text.toList with
  | some p => ⟨p.2⟩
  | Option.none => error_text

/-- Classification of a 200 payment-page response in
`verify_card_with_cached_session` (`main.py:198-210`).  The argument is the
text of the `<span class="error">` element, or `none` when no such span. -/
def classify_cached (errorSpan : Option String) : String × String :=
  match errorSpan with
  | some error_text =>
    let error_message := stripErrMessage error_text
    if pyIn "CVV2" error_message then ("approved", error_message)
    else ("declined", error_message)
  | Option.none => ("approved", "Card added successfully.")

/-- Classification of a 200 payment-page response in `worldpay_auth`
(`main.py:817-829`), transcribed from that site. -/
def classify_full (errorSpan : Option String) : String × String :=
  match errorSpan with
  | some error_text =>
    let error_message := stripErrMessage error_text
    if pyIn "CVV2" error_message then ("approved", error_message)
    else ("declined", error_message)
  | Option.none => ("approved", "Card added successfully.")

/-! ## Card-field normalization -/

/-- Python `str.zfill` on a character list: pad on the left with `'0'` to the
requested width, keeping a leading sign in front of the padding. -/
def zfillL (l : List Char) (width : Nat) : List Char :=
  match l with
  | [] => List.replicate width '0'
  | c :: rest =>
    if c = '+' ∨ c = '-' then
      c :: (List.replicate (width - l.length) '0' ++ rest)
    else
      List.replicate (width - l.length) '0' ++ l

/-- Python `s.zfill(width)`. -/
def zfill (s : String) (width : Nat) : String := ⟨zfillL s.toList width⟩

/-- Python `s[-2:]`: the last two characters (the whole string when shorter). -/
def lastTwo (s : String) : String := ⟨s.toList.drop (s.toList.length - 2)⟩

/-- The card fields of the hosted-payment form submission. -/
structure CardFields where
  cardNumber : String
  ddlExpirationMonth : String
  ddlExpirationYear : String
  CVV : String
deriving DecidableEq, Repr

/-- Card fields as built in the cached-session submission (`main.py:178-183`). -/
def mkCardFieldsCached (card_number exp_month exp_year cvv : String) :
    CardFields :=
  { cardNumber := card_number
    ddlExpirationMonth := zfill exp_month 2
    ddlExpirationYear := if exp_year.length = 2 then exp_year else lastTwo exp_year
    CVV := zfill cvv 3 }

/-- Card fields as built in the full-flow submission (`main.py:797-802`). -/
def mkCardFieldsFull (card_number exp_month exp_year cvv : String) :
    CardFields :=
  { cardNumber := card_number
    ddlExpirationMonth := zfill exp_month 2
    ddlExpirationYear := if exp_year.length = 2 then exp_year else lastTwo exp_year
    CVV := zfill cvv 3 }

/-! ## HTTP environment -/

/-- One HTTP response, with the pieces of its body the code reads:
`resp.json()` (which may raise), the three hidden form inputs scraped at
`main.py:741-751` (already reduced to `tag.get("value", "")`, `none` when the
input is absent), and the text of `<span class="error">` when present. -/
structure HttpResp where
  status_code : Nat
  jsonBody : Except PyExc PyVal
  inputViewstate : Option String
  inputViewstateGenerator : Option String
  inputEventValidation : Option String
  errorSpan : Option String

/-- Environment of one `worldpay_auth` run: the fake identity, the responses
of requests 1-8 per retry attempt, the response of request 9 (which is allowed
to depend on the submitted card fields), the client's cookie jar at the time
the session is saved, `time.time()` at that moment, and whether the cache-file
write fails. -/
structure FlowEnv where
  user_agent : String
  first_name : String
  last_name : String
  phone : String
  email : String
  attempt : Nat → Nat → Except PyExc HttpResp
  attempt9 : CardFields → Nat → Except PyExc HttpResp
  cookies : List (String × String)
  now : Int
  writeFails : Bool

/-- Outcome of `request_with_retry` for request number `i` of the flow. -/
def reqRes (env : FlowEnv) (i : Nat) : Except (Option PyExc) HttpResp :=
  (request_with_retry (env.attempt i)).1

/-- Outcome of `request_with_retry` for request 9, given the submitted card
fields. -/
def reqRes9 (env : FlowEnv) (fields : CardFields) :
    Except (Option PyExc) HttpResp :=
  (request_with_retry (env.attempt9 fields)).1

/-- An early exit of the flow: the `(status, message)` pair returned. -/
abbrev Res := String × String

/-- Sequencing with early exit (`Except.bind`, spelled out). -/
def andThen {ε α β : Type} (x : Except ε α) (f : α → Except ε β) :
    Except ε β :=
  match x with
  | .error r => .error r
  | .ok a => f a

/-- What Python raises when `raise last_exception` is reached with
`last_exception` still bound to the exception tuple (impossible when
`attempts ≥ 1`). -/
def raisedToExc (oe : Option PyExc) : PyExc :=
  oe.getD (.typeError "exceptions must derive from BaseException")

/-- The status-code check after each request: an exception that escaped the
retry wrapper is caught by the flow's `except` and yields
`("error", str(e))`; a non-200 response yields
`("error", f"Request {req_num} failed")`. -/
def handleReq (req_num : Nat) (r : Except (Option PyExc) HttpResp) :
    Except Res HttpResp :=
  match r with
  | .error oe => .error ("error", (raisedToExc oe).str)
  | .ok resp =>
    if resp.status_code ≠ 200 then
      .error ("error", "Request " ++ toString req_num ++ " failed")
    else .ok resp

/-- Lift a Python-level computation into the flow: an exception it raises is
caught by the flow's `except Exception` and becomes `("error", str(e))`. -/
def tryE {α : Type} (x : Except PyExc α) : Except Res α :=
  match x with
  | .error e => .error ("error", e.str)
  | .ok a => .ok a

/-! ## The full 9-request flow (`worldpay_auth`, `main.py:216-833`)

The body is cut at each outbound request into prefix functions `pre2` ... `pre9`:
`preI` performs everything the flow does before request `I` (so `pre9`
performs requests 1-8 and their response processing).  An `.error` value is a
terminated flow: either an early `return` or an exception caught by the
`except Exception` at `main.py:831-833`. -/

/-- Before request 2: request 1 and
`cart_id = resp.json().get("Result").get("Reference")`
(`.get` on a missing/None `Result` raises `AttributeError`). -/
def pre2 (env : FlowEnv) : Except Res PyVal :=
  andThen (handleReq 1 (reqRes env 1)) fun resp1 =>
  andThen (tryE resp1.jsonBody) fun resp_json =>
  andThen (tryE (pyGet resp_json "Result")) fun resultv =>
  tryE (pyGet resultv "Reference")

/-- Before request 3: request 2 (add item to cart; body unused afterwards). -/
def pre3 (env : FlowEnv) : Except Res PyVal :=
  andThen (pre2 env) fun cart_id =>
  andThen (handleReq 2 (reqRes env 2)) fun _resp2 =>
  .ok cart_id

/-- The generator at `main.py:421-432`: first slot with
`Availability == "Open"` inside the location with `Id == 1986`. -/
def findOpenInSlots : List PyVal → Except PyExc (Option PyVal)
  | [] => .ok Option.none
  | slot :: rest =>
    andThen (pyGet slot "Availability") fun av =>
    if av.eqStr "Open" then .ok (some slot) else findOpenInSlots rest

/-- Iteration over `PickupLocations` in the same generator. -/
def findOpenSlot : List PyVal → Except PyExc (Option PyVal)
  | [] => .ok Option.none
  | location :: rest =>
    andThen (pyGet location "Id") fun idv =>
    if idv.eqInt 1986 then
      andThen (location.getD "TimeSlots" (.list [])) fun ts =>
      match ts with
      | .list slots =>
        andThen (findOpenInSlots slots) fun found =>
        match found with
        | some slot => .ok (some slot)
        | Option.none => findOpenSlot rest
      | _ => .error (.typeError "object is not iterable")
    else findOpenSlot rest

/-- Before request 4: request 3 (timeslots), the open-slot search, and the
`if not id_value or not start_value` check.  Returns
`(cart_id, id_value, start_value)`. -/
def pre4 (env : FlowEnv) : Except Res (PyVal × PyVal × PyVal) :=
  andThen (pre3 env) fun cart_id =>
  andThen (handleReq 3 (reqRes env 3)) fun resp3 =>
  andThen (tryE resp3.jsonBody) fun resp_json =>
  andThen (tryE (resp_json.getD "Result" (.dict []))) fun resultv =>
  andThen (tryE (resultv.getD "PickupLocations" (.list []))) fun locations =>
  andThen (tryE (match locations with
    | .list ls => findOpenSlot ls
    | _ => .error (.typeError "object is not iterable"))) fun open_slot =>
  andThen (tryE (match open_slot with
    | some slot =>
      andThen (pyGet slot "Id") fun idv =>
      andThen (pyGet slot "Start") fun sv =>
      .ok (idv, sv)
    | Option.none => .ok (PyVal.none, PyVal.none))) fun ids =>
  if !ids.1.truthy || !ids.2.truthy then
    .error ("error", "No open timeslots available")
  else .ok (cart_id, ids.1, ids.2)

/-- Before request 5: request 4 (set timeslot; body unused afterwards). -/
def pre5 (env : FlowEnv) : Except Res (PyVal × PyVal × PyVal) :=
  andThen (pre4 env) fun ctx =>
  andThen (handleReq 4 (reqRes env 4)) fun _resp4 =>
  .ok ctx

/-- Before request 6: request 5 and
`customer_id = resp.json().get("Result", {}).get("Recipient", {}).get("CustomerId", {})`
with the `if customer_id is None` check.  Returns
`(cart_id, id_value, start_value, customer_id)`. -/
def pre6 (env : FlowEnv) : Except Res (PyVal × PyVal × PyVal × PyVal) :=
  andThen (pre5 env) fun ctx =>
  andThen (handleReq 5 (reqRes env 5)) fun resp5 =>
  andThen (tryE resp5.jsonBody) fun resp_json =>
  andThen (tryE (andThen (resp_json.getD "Result" (.dict [])) fun resultv =>
    andThen (resultv.getD "Recipient" (.dict [])) fun recip =>
    recip.getD "CustomerId" (.dict []))) fun customer_id =>
  if customer_id.isNone then .error ("error", "CustomerId not found")
  else .ok (ctx.1, ctx.2.1, ctx.2.2, customer_id)

/-- Before request 7: request 6 (body unused afterwards). -/
def pre7 (env : FlowEnv) : Except Res (PyVal × PyVal × PyVal × PyVal) :=
  andThen (pre6 env) fun ctx =>
  andThen (handleReq 6 (reqRes env 6)) fun _resp6 =>
  .ok ctx

/-- Before request 8: request 7 and
`transaction_id = resp.json().get("Result", {})`. -/
def pre8 (env : FlowEnv) :
    Except Res (PyVal × PyVal × PyVal × PyVal × PyVal) :=
  andThen (pre7 env) fun ctx =>
  andThen (handleReq 7 (reqRes env 7)) fun resp7 =>
  andThen (tryE resp7.jsonBody) fun resp_json =>
  andThen (tryE (resp_json.getD "Result" (.dict []))) fun transaction_id =>
  .ok (ctx.1, ctx.2.1, ctx.2.2.1, ctx.2.2.2, transaction_id)

/-- Before request 9: request 8, the hidden-input scrape, and assembly of
`session_data` (`main.py:753-762`; no `"timestamp"` yet). -/
def pre9 (env : FlowEnv) : Except Res SessionData :=
  andThen (pre8 env) fun ctx =>
  andThen (handleReq 8 (reqRes env 8)) fun resp8 =>
  .ok { user_agent := env.user_agent
        transaction_id := ctx.2.2.2.2
        viewstate := resp8.inputViewstate
        viewstategenerator := resp8.inputViewstateGenerator
        eventvalidation := resp8.inputEventValidation
        cookies := env.cookies
        cart_id := ctx.1
        customer_id := ctx.2.2.2.1
        timestamp := Option.none }

/-- `worldpay_auth`: requests 1-8 (`pre9`), then `save_session(1021, ...)`,
then request 9 and the response classification.  Always returns a
`(status, message)` pair together with the final cache state. -/
def worldpay_auth (env : FlowEnv)
    (card_number exp_month exp_year cvv : String)
    (session_cache : SessionCacheState) : Res × SessionCacheState :=
  match pre9 env with
  | .error r => (r, session_cache)
  | .ok session_data =>
    let session_cache :=
      save_session session_cache 1021 session_data env.now env.writeFails
    let fields := mkCardFieldsFull card_number exp_month exp_year cvv
    match handleReq 9 (reqRes9 env fields) with
    | .error r => (r, session_cache)
    | .ok resp => (classify_full resp.errorSpan, session_cache)

/-! ## `verify_card_with_cached_session` (`main.py:129-214`) -/

/-- Environment of a cached-session verification: the response of the single
POST, per retry attempt, depending on the cached session values and the
submitted card fields. -/
structure VerifyEnv where
  attempt : SessionData → CardFields → Nat → Except PyExc HttpResp

/-- `verify_card_with_cached_session`: one POST with the cached tokens and the
normalized card fields; `None` on any exception or non-200 status, otherwise
the classification of the response. -/
def verify_card_with_cached_session (venv : VerifyEnv)
    (card_number exp_month exp_year cvv : String)
    (cached_session : SessionData) : Option (String × String) :=
  let fields := mkCardFieldsCached card_number exp_month exp_year cvv
  match (request_with_retry (venv.attempt cached_session fields)).1 with
  | .error _ => Option.none
  | .ok resp =>
    if resp.status_code ≠ 200 then Option.none
    else some (classify_cached resp.errorSpan)

/-! ## `worldpay_auth_with_cache` (`main.py:114-127`) -/

/-- Environment of one `worldpay_auth_with_cache` invocation. -/
structure WCEnv where
  disk : DiskState
  now : Int
  venv : VerifyEnv
  fenv : FlowEnv

/-- `worldpay_auth_with_cache`: parse the card (`ValueError` propagates),
build a `SessionCache`, optionally fetch a cached session, try the quick
verification, and fall back to the full flow.  The returned value is the
Python variable `result`, whose type is `Optional[Tuple[str, str]]`. -/
def worldpay_auth_with_cache (wenv : WCEnv) (card : String)
    (use_cache : Bool) :
    Except PyExc (Option (String × String) × SessionCacheState) :=
  match parse_card card with
  | .error e => .error e
  | .ok (card_number, exp_month, exp_year, cvv) =>
    let session_cache := SessionCache.init wenv.disk
    let (cached_session, session_cache) :=
      if use_cache then get_session session_cache wenv.now 1021
      else (Option.none, session_cache)
    let quick : Option (String × String) :=
      match cached_session with
      | some sess =>
        verify_card_with_cached_session wenv.venv
          card_number exp_month exp_year cvv sess
      | Option.none => Option.none
    match quick with
    | some result => .ok (some result, session_cache)
    | Option.none =>
      let (result, session_cache) :=
        worldpay_auth wenv.fenv card_number exp_month exp_year cvv session_cache
      .ok (some result, session_cache)

/-! ## `/check` endpoint (`check_card`, `main.py:845-892`) -/

/-- What the endpoint hands back to FastAPI: either a `JSONResponse` with the
shown fields, or an `HTTPException` propagating out of the handler. -/
inductive ApiOut where
  | jsonResp (status_code : Nat) (success : Bool)
      (card status message : String) (timestamp : Int)
  | httpError (status_code : Nat) (detail : String)
deriving DecidableEq, Repr

/-- `check_card`: format check (raising `HTTPException(400)`), the cached
call, the `result is None` retry, and the success/failure JSON, wrapped in
`except ValueError` (re-raised as a 400) and `except Exception` (a 500 JSON
with `str(e)` — this also catches the `HTTPException` raised by the format
check).  `env1`/`env2` are the environments of the two possible
`worldpay_auth_with_cache` calls, `tnow` is `int(time.time())`. -/
def check_card (env1 env2 : WCEnv) (tnow : Int) (cc : String) : ApiOut :=
  let body : Except PyExc ApiOut :=
    if cc = "" ∨ !(pyIn "|" cc) then
      .error (.httpException 400
        "Invalid card format. Use: card_number|exp_month|exp_year|cvv")
    else
      andThen (worldpay_auth_with_cache env1 cc true) fun r1 =>
      andThen (match r1.1 with
        | Option.none =>
          andThen (worldpay_auth_with_cache env2 cc false) fun r2 =>
          .ok r2.1
        | some r => .ok (some r)) fun result =>
      match result with
      | some (status, message) =>
        .ok (.jsonResp 200 true cc status.toUpper message tnow)
      | Option.none =>
        .ok (.jsonResp 500 false cc "ERROR" "Failed to process card" tnow)
  match body with
  | .ok out => out
  | .error (.valueError m) => .httpError 400 m
  | .error e => .jsonResp 500 false cc "ERROR" e.str tnow

/-! ## Concrete environments used to exercise the definitions -/

/-- A response with the given status code, an empty JSON object and no
scraped elements. -/
def exResp (code : Nat) : HttpResp :=
  { status_code := code
    jsonBody := .ok (.dict [])
    inputViewstate := Option.none
    inputViewstateGenerator := Option.none
    inputEventValidation := Option.none
    errorSpan := Option.none }

/-- A flow environment answering every request with `exResp code`. -/
def exFlowEnv (code : Nat) : FlowEnv :=
  { user_agent := "ua"
    first_name := "Jo"
    last_name := "Doe"
    phone := "5551234"
    email := "jodoe1@example.com"
    attempt := fun _ _ => .ok (exResp code)
    attempt9 := fun _ _ => .ok (exResp code)
    cookies := []
    now := 0
    writeFails := false }

/-- A verification environment answering the POST with `exResp code`. -/
def exVerifyEnv (code : Nat) : VerifyEnv :=
  { attempt := fun _ _ _ => .ok (exResp code) }

/-- A complete session record saved at time 0. -/
def exSession : SessionData :=
  { user_agent := "ua"
    transaction_id := .str "t"
    viewstate := some "v"
    viewstategenerator := some "g"
    eventvalidation := some "e"
    cookies := []
    cart_id := .str "c"
    customer_id := .int 5
    timestamp := some 0 }

/-- A cache file holding `exSession` for store `"1021"`. -/
def exDisk : DiskState := some (.ok [("1021", exSession)])

/-- An invocation environment: cached session available, every request
answered with status `code`. -/
def exWCEnv (code : Nat) : WCEnv :=
  { disk := exDisk, now := 10, venv := exVerifyEnv code, fenv := exFlowEnv code }

/-- An empty cache with no backing file. -/
def exCache : SessionCacheState := { sessions := [], disk := Option.none }

/-! ## Helper lemmas -/

theorem andThen_ok {ε α β : Type} (a : α) (f : α → Except ε β) :
    andThen (.ok a) f = f a := rfl

theorem andThen_error {ε α β : Type} (r : ε) (f : α → Except ε β) :
    andThen (.error r) f = .error r := rfl

theorem andThen_error_cases {ε α β : Type} {x : Except ε α}
    {f : α → Except ε β} {r : ε} (h : andThen x f = .error r) :
    x = .error r ∨ ∃ a, x = .ok a ∧ f a = .error r := by
  cases x with
  | error e =>
    rw [andThen_error] at h
    injection h with h'
    exact Or.inl (by rw [h'])
  | ok a => rw [andThen_ok] at h; exact Or.inr ⟨a, rfl, h⟩

theorem handleReq_error_fst {i : Nat} {x : Except (Option PyExc) HttpResp}
    {r : Res} (h : handleReq i x = .error r) : r.1 = "error" := by
  cases x with
  | error oe =>
    simp only [handleReq, Except.error.injEq] at h
    subst h; rfl
  | ok resp =>
    simp only [handleReq] at h
    split at h
    · simp only [Except.error.injEq] at h
      subst h; rfl
    · exact absurd h (by simp)

theorem tryE_error_fst {α : Type} {x : Except PyExc α} {r : Res}
    (h : tryE x = .error r) : r.1 = "error" := by
  cases x with
  | error e =>
    simp only [tryE, Except.error.injEq] at h
    subst h; rfl
  | ok a => exact absurd h (by simp [tryE])

theorem pre2_error_fst {env : FlowEnv} {r : Res} (h : pre2 env = .error r) :
    r.1 = "error" := by
  unfold pre2 at h
  rcases andThen_error_cases h with h | ⟨resp1, -, h⟩
  · exact handleReq_error_fst h
  rcases andThen_error_cases h with h | ⟨rj, -, h⟩
  · exact tryE_error_fst h
  rcases andThen_error_cases h with h | ⟨rv, -, h⟩
  · exact tryE_error_fst h
  exact tryE_error_fst h

theorem pre3_error_fst {env : FlowEnv} {r : Res} (h : pre3 env = .error r) :
    r.1 = "error" := by
  unfold pre3 at h
  rcases andThen_error_cases h with h | ⟨c, -, h⟩
  · exact pre2_error_fst h
  rcases andThen_error_cases h with h | ⟨resp2, -, h⟩
  · exact handleReq_error_fst h
  exact absurd h (by simp)

theorem pre4_error_fst {env : FlowEnv} {r : Res} (h : pre4 env = .error r) :
    r.1 = "error" := by
  unfold pre4 at h
  rcases andThen_error_cases h with h | ⟨c, -, h⟩
  · exact pre3_error_fst h
  rcases andThen_error_cases h with h | ⟨resp3, -, h⟩
  · exact handleReq_error_fst h
  rcases andThen_error_cases h with h | ⟨rj, -, h⟩
  · exact tryE_error_fst h
  rcases andThen_error_cases h with h | ⟨rv, -, h⟩
  · exact tryE_error_fst h
  rcases andThen_error_cases h with h | ⟨locs, -, h⟩
  · exact tryE_error_fst h
  rcases andThen_error_cases h with h | ⟨slot, -, h⟩
  · exact tryE_error_fst h
  rcases andThen_error_cases h with h | ⟨ids, -, h⟩
  · exact tryE_error_fst h
  split at h
  · simp only [Except.error.injEq] at h
    subst h; rfl
  · exact absurd h (by simp)

theorem pre5_error_fst {env : FlowEnv} {r : Res} (h : pre5 env = .error r) :
    r.1 = "error" := by
  unfold pre5 at h
  rcases andThen_error_cases h with h | ⟨c, -, h⟩
  · exact pre4_error_fst h
  rcases andThen_error_cases h with h | ⟨resp4, -, h⟩
  · exact handleReq_error_fst h
  exact absurd h (by simp)

theorem pre6_error_fst {env : FlowEnv} {r : Res} (h : pre6 env = .error r) :
    r.1 = "error" := by
  unfold pre6 at h
  rcases andThen_error_cases h with h | ⟨c, -, h⟩
  · exact pre5_error_fst h
  rcases andThen_error_cases h with h | ⟨resp5, -, h⟩
  · exact handleReq_error_fst h
  rcases andThen_error_cases h with h | ⟨rj, -, h⟩
  · exact tryE_error_fst h
  rcases andThen_error_cases h with h | ⟨cid, -, h⟩
  · exact tryE_error_fst h
  split at h
  · simp only [Except.error.injEq] at h
    subst h; rfl
  · exact absurd h (by simp)

theorem pre7_error_fst {env : FlowEnv} {r : Res} (h : pre7 env = .error r) :
    r.1 = "error" := by
  unfold pre7 at h
  rcases andThen_error_cases h with h | ⟨c, -, h⟩
  · exact pre6_error_fst h
  rcases andThen_error_cases h with h | ⟨resp6, -, h⟩
  · exact handleReq_error_fst h
  exact absurd h (by simp)

theorem pre8_error_fst {env : FlowEnv} {r : Res} (h : pre8 env = .error r) :
    r.1 = "error" := by
  unfold pre8 at h
  rcases andThen_error_cases h with h | ⟨c, -, h⟩
  · exact pre7_error_fst h
  rcases andThen_error_cases h with h | ⟨resp7, -, h⟩
  · exact handleReq_error_fst h
  rcases andThen_error_cases h with h | ⟨rj, -, h⟩
  · exact tryE_error_fst h
  rcases andThen_error_cases h with h | ⟨tid, -, h⟩
  · exact tryE_error_fst h
  exact absurd h (by simp)

theorem pre9_error_fst {env : FlowEnv} {r : Res} (h : pre9 env = .error r) :
    r.1 = "error" := by
  unfold pre9 at h
  rcases andThen_error_cases h with h | ⟨c, -, h⟩
  · exact pre8_error_fst h
  rcases andThen_error_cases h with h | ⟨resp8, -, h⟩
  · exact handleReq_error_fst h
  exact absurd h (by simp)

theorem classify_full_fst (o : Option String) :
    (classify_full o).1 = "approved" ∨ (classify_full o).1 = "declined" := by
  cases o with
  | none => exact Or.inl rfl
  | some t =>
    simp only [classify_full]
    by_cases hc : pyIn "CVV2" (stripErrMessage t)
    · simp [hc]
    · simp [hc]

theorem classify_cached_eq_full (o : Option String) :
    classify_cached o = classify_full o := by
  cases o <;> rfl

theorem pre3_of_pre2_error {env : FlowEnv} {r : Res}
    (h : pre2 env = .error r) : pre3 env = .error r := by
  unfold pre3; rw [h, andThen_error]

theorem pre4_of_pre3_error {env : FlowEnv} {r : Res}
    (h : pre3 env = .error r) : pre4 env = .error r := by
  unfold pre4; rw [h, andThen_error]

theorem pre5_of_pre4_error {env : FlowEnv} {r : Res}
    (h : pre4 env = .error r) : pre5 env = .error r := by
  unfold pre5; rw [h, andThen_error]

theorem pre6_of_pre5_error {env : FlowEnv} {r : Res}
    (h : pre5 env = .error r) : pre6 env = .error r := by
  unfold pre6; rw [h, andThen_error]

theorem pre7_of_pre6_error {env : FlowEnv} {r : Res}
    (h : pre6 env = .error r) : pre7 env = .error r := by
  unfold pre7; rw [h, andThen_error]

theorem pre8_of_pre7_error {env : FlowEnv} {r : Res}
    (h : pre7 env = .error r) : pre8 env = .error r := by
  unfold pre8; rw [h, andThen_error]

theorem pre9_of_pre8_error {env : FlowEnv} {r : Res}
    (h : pre8 env = .error r) : pre9 env = .error r := by
  unfold pre9; rw [h, andThen_error]

theorem pre9_of_pre4_error {env : FlowEnv} {r : Res}
    (h : pre4 env = .error r) : pre9 env = .error r :=
  pre9_of_pre8_error (pre8_of_pre7_error (pre7_of_pre6_error
    (pre6_of_pre5_error (pre5_of_pre4_error h))))

theorem worldpay_auth_of_pre9_error {env : FlowEnv} {r : Res}
    (cn em ey cv : String) (cache : SessionCacheState)
    (h : pre9 env = .error r) :
    worldpay_auth env cn em ey cv cache = (r, cache) := by
  unfold worldpay_auth; rw [h]

theorem handleReq_bad_status {i : Nat} {x : Except (Option PyExc) HttpResp}
    {resp : HttpResp} (hx : x = .ok resp) (hs : resp.status_code ≠ 200) :
    handleReq i x = .error ("error", "Request " ++ toString i ++ " failed") := by
  rw [hx]; simp only [handleReq, if_pos hs]

theorem handleReq_exc {i : Nat} {x : Except (Option PyExc) HttpResp}
    {oe : Option PyExc} (hx : x = .error oe) :
    handleReq i x = .error ("error", (raisedToExc oe).str) := by
  rw [hx]; rfl

theorem pre2_stop1 {env : FlowEnv} {r : Res}
    (h : handleReq 1 (reqRes env 1) = .error r) : pre2 env = .error r := by
  unfold pre2; rw [h, andThen_error]

theorem pre3_stop2 {env : FlowEnv} {ctx : PyVal} {r : Res}
    (h : pre2 env = .ok ctx) (hr : handleReq 2 (reqRes env 2) = .error r) :
    pre3 env = .error r := by
  unfold pre3; rw [h, andThen_ok, hr, andThen_error]

theorem pre4_stop3 {env : FlowEnv} {ctx : PyVal} {r : Res}
    (h : pre3 env = .ok ctx) (hr : handleReq 3 (reqRes env 3) = .error r) :
    pre4 env = .error r := by
  unfold pre4; rw [h, andThen_ok, hr, andThen_error]

theorem pre5_stop4 {env : FlowEnv} {ctx : PyVal × PyVal × PyVal} {r : Res}
    (h : pre4 env = .ok ctx) (hr : handleReq 4 (reqRes env 4) = .error r) :
    pre5 env = .error r := by
  unfold pre5; rw [h, andThen_ok, hr, andThen_error]

theorem pre6_stop5 {env : FlowEnv} {ctx : PyVal × PyVal × PyVal} {r : Res}
    (h : pre5 env = .ok ctx) (hr : handleReq 5 (reqRes env 5) = .error r) :
    pre6 env = .error r := by
  unfold pre6; rw [h, andThen_ok, hr, andThen_error]

theorem pre7_stop6 {env : FlowEnv} {ctx : PyVal × PyVal × PyVal × PyVal}
    {r : Res} (h : pre6 env = .ok ctx)
    (hr : handleReq 6 (reqRes env 6) = .error r) : pre7 env = .error r := by
  unfold pre7; rw [h, andThen_ok, hr, andThen_error]

theorem pre8_stop7 {env : FlowEnv} {ctx : PyVal × PyVal × PyVal × PyVal}
    {r : Res} (h : pre7 env = .ok ctx)
    (hr : handleReq 7 (reqRes env 7) = .error r) : pre8 env = .error r := by
  unfold pre8; rw [h, andThen_ok, hr, andThen_error]

theorem pre9_stop8 {env : FlowEnv}
    {ctx : PyVal × PyVal × PyVal × PyVal × PyVal} {r : Res}
    (h : pre8 env = .ok ctx)
    (hr : handleReq 8 (reqRes env 8) = .error r) : pre9 env = .error r := by
  unfold pre9; rw [h, andThen_ok, hr, andThen_error]

theorem worldpay_auth_step9 {env : FlowEnv} {sd : SessionData} {r : Res}
    (cn em ey cv : String) (cache : SessionCacheState)
    (h : pre9 env = .ok sd)
    (hr : handleReq 9 (reqRes9 env (mkCardFieldsFull cn em ey cv)) = .error r) :
    worldpay_auth env cn em ey cv cache =
      (r, save_session cache 1021 sd env.now env.writeFails) := by
  unfold worldpay_auth
  rw [h]
  simp only [hr]

/-- C4: in `worldpay_auth`, a response with status other than 200 at any of
the nine requests stops the flow with `("error", "Request N failed")` (naming
only the request number); an exception escaping a request is caught and the
flow returns `("error", str(e))`; and the flow never raises: it always
returns a `(status, message)` pair whose status is `"approved"`, `"declined"`
or `"error"`.  `preN env = .ok ctx` states that the flow reached request `N`. -/
theorem c4_flow_error_handling :
    (∀ (env : FlowEnv) (cn em ey cv : String) (cache : SessionCacheState),
      (worldpay_auth env cn em ey cv cache).1.1 = "approved" ∨
      (worldpay_auth env cn em ey cv cache).1.1 = "declined" ∨
      (worldpay_auth env cn em ey cv cache).1.1 = "error") ∧
    (∀ (env : FlowEnv) (resp : HttpResp) (cn em ey cv : String)
      (cache : SessionCacheState),
      reqRes env 1 = .ok resp → resp.status_code ≠ 200 →
      worldpay_auth env cn em ey cv cache =
        (("error", "Request 1 failed"), cache)) ∧
    (∀ (env : FlowEnv) (oe : Option PyExc) (cn em ey cv : String)
      (cache : SessionCacheState),
      reqRes env 1 = .error oe →
      worldpay_auth env cn em ey cv cache =
        (("error", (raisedToExc oe).str), cache)) ∧
    (∀ (env : FlowEnv) (ctx : PyVal) (resp : HttpResp) (cn em ey cv : String)
      (cache : SessionCacheState),
      pre2 env = .ok ctx → reqRes env 2 = .ok resp → resp.status_code ≠ 200 →
      worldpay_auth env cn em ey cv cache =
        (("error", "Request 2 failed"), cache)) ∧
    (∀ (env : FlowEnv) (ctx : PyVal) (oe : Option PyExc) (cn em ey cv : String)
      (cache : SessionCacheState),
      pre2 env = .ok ctx → reqRes env 2 = .error oe →
      worldpay_auth env cn em ey cv cache =
        (("error", (raisedToExc oe).str), cache)) ∧
    (∀ (env : FlowEnv) (ctx : PyVal) (resp : HttpResp) (cn em ey cv : String)
      (cache : SessionCacheState),
      pre3 env = .ok ctx → reqRes env 3 = .ok resp → resp.status_code ≠ 200 →
      worldpay_auth env cn em ey cv cache =
        (("error", "Request 3 failed"), cache)) ∧
    (∀ (env : FlowEnv) (ctx : PyVal) (oe : Option PyExc) (cn em ey cv : String)
      (cache : SessionCacheState),
      pre3 env = .ok ctx → reqRes env 3 = .error oe →
      worldpay_auth env cn em ey cv cache =
        (("error", (raisedToExc oe).str), cache)) ∧
    (∀ (env : FlowEnv) (ctx : PyVal × PyVal × PyVal) (resp : HttpResp)
      (cn em ey cv : String) (cache : SessionCacheState),
      pre4 env = .ok ctx → reqRes env 4 = .ok resp → resp.status_code ≠ 200 →
      worldpay_auth env cn em ey cv cache =
        (("error", "Request 4 failed"), cache)) ∧
    (∀ (env : FlowEnv) (ctx : PyVal × PyVal × PyVal) (oe : Option PyExc)
      (cn em ey cv : String) (cache : SessionCacheState),
      pre4 env = .ok ctx → reqRes env 4 = .error oe →
      worldpay_auth env cn em ey cv cache =
        (("error", (raisedToExc oe).str), cache)) ∧
    (∀ (env : FlowEnv) (ctx : PyVal × PyVal × PyVal) (resp : HttpResp)
      (cn em ey cv : String) (cache : SessionCacheState),
      pre5 env = .ok ctx → reqRes env 5 = .ok resp → resp.status_code ≠ 200 →
      worldpay_auth env cn em ey cv cache =
        (("error", "Request 5 failed"), cache)) ∧
    (∀ (env : FlowEnv) (ctx : PyVal × PyVal × PyVal) (oe : Option PyExc)
      (cn em ey cv : String) (cache : SessionCacheState),
      pre5 env = .ok ctx → reqRes env 5 = .error oe →
      worldpay_auth env cn em ey cv cache =
        (("error", (raisedToExc oe).str), cache)) ∧
    (∀ (env : FlowEnv) (ctx : PyVal × PyVal × PyVal × PyVal) (resp : HttpResp)
      (cn em ey cv : String) (cache : SessionCacheState),
      pre6 env = .ok ctx → reqRes env 6 = .ok resp → resp.status_code ≠ 200 →
      worldpay_auth env cn em ey cv cache =
        (("error", "Request 6 failed"), cache)) ∧
    (∀ (env : FlowEnv) (ctx : PyVal × PyVal × PyVal × PyVal) (oe : Option PyExc)
      (cn em ey cv : String) (cache : SessionCacheState),
      pre6 env = .ok ctx → reqRes env 6 = .error oe →
      worldpay_auth env cn em ey cv cache =
        (("error", (raisedToExc oe).str), cache)) ∧
    (∀ (env : FlowEnv) (ctx : PyVal × PyVal × PyVal × PyVal) (resp : HttpResp)
      (cn em ey cv : String) (cache : SessionCacheState),
      pre7 env = .ok ctx → reqRes env 7 = .ok resp → resp.status_code ≠ 200 →
      worldpay_auth env cn em ey cv cache =
        (("error", "Request 7 failed"), cache)) ∧
    (∀ (env : FlowEnv) (ctx : PyVal × PyVal × PyVal × PyVal) (oe : Option PyExc)
      (cn em ey cv : String) (cache : SessionCacheState),
      pre7 env = .ok ctx → reqRes env 7 = .error oe →
      worldpay_auth env cn em ey cv cache =
        (("error", (raisedToExc oe).str), cache)) ∧
    (∀ (env : FlowEnv) (ctx : PyVal × PyVal × PyVal × PyVal × PyVal)
      (resp : HttpResp) (cn em ey cv : String) (cache : SessionCacheState),
      pre8 env = .ok ctx → reqRes env 8 = .ok resp → resp.status_code ≠ 200 →
      worldpay_auth env cn em ey cv cache =
        (("error", "Request 8 failed"), cache)) ∧
    (∀ (env : FlowEnv) (ctx : PyVal × PyVal × PyVal × PyVal × PyVal)
      (oe : Option PyExc) (cn em ey cv : String) (cache : SessionCacheState),
      pre8 env = .ok ctx → reqRes env 8 = .error oe →
      worldpay_auth env cn em ey cv cache =
        (("error", (raisedToExc oe).str), cache)) ∧
    (∀ (env : FlowEnv) (sd : SessionData) (resp : HttpResp)
      (cn em ey cv : String) (cache : SessionCacheState),
      pre9 env = .ok sd →
      reqRes9 env (mkCardFieldsFull cn em ey cv) = .ok resp →
      resp.status_code ≠ 200 →
      worldpay_auth env cn em ey cv cache =
        (("error", "Request 9 failed"),
          save_session cache 1021 sd env.now env.writeFails)) ∧
    (∀ (env : FlowEnv) (sd : SessionData) (oe : Option PyExc)
      (cn em ey cv : String) (cache : SessionCacheState),
      pre9 env = .ok sd →
      reqRes9 env (mkCardFieldsFull cn em ey cv) = .error oe →
      worldpay_auth env cn em ey cv cache =
        (("error", (raisedToExc oe).str),
          save_session cache 1021 sd env.now env.writeFails)) := by
  refine ⟨?_, ?_, ?_, ?_, ?_, ?_, ?_, ?_, ?_, ?_, ?_, ?_, ?_, ?_, ?_, ?_, ?_,
    ?_, ?_⟩
  · intro env cn em ey cv cache
    unfold worldpay_auth
    cases hp : pre9 env with
    | error r =>
      right; right; exact pre9_error_fst hp
    | ok sd =>
      cases hr : handleReq 9 (reqRes9 env (mkCardFieldsFull cn em ey cv)) with
      | error r =>
        simp only [hr]
        right; right; exact handleReq_error_fst hr
      | ok resp =>
        simp only [hr]
        rcases classify_full_fst resp.errorSpan with h | h
        · left; exact h
        · right; left; exact h
  · intro env resp cn em ey cv cache h1 hs
    exact worldpay_auth_of_pre9_error cn em ey cv cache
      (pre9_of_pre4_error (pre4_of_pre3_error (pre3_of_pre2_error
        (pre2_stop1 (handleReq_bad_status h1 hs)))))
  · intro env oe cn em ey cv cache h1
    exact worldpay_auth_of_pre9_error cn em ey cv cache
      (pre9_of_pre4_error (pre4_of_pre3_error (pre3_of_pre2_error
        (pre2_stop1 (handleReq_exc h1)))))
  · intro env ctx resp cn em ey cv cache hp h1 hs
    exact worldpay_auth_of_pre9_error cn em ey cv cache
      (pre9_of_pre4_error (pre4_of_pre3_error
        (pre3_stop2 hp (handleReq_bad_status h1 hs))))
  · intro env ctx oe cn em ey cv cache hp h1
    exact worldpay_auth_of_pre9_error cn em ey cv cache
      (pre9_of_pre4_error (pre4_of_pre3_error
        (pre3_stop2 hp (handleReq_exc h1))))
  · intro env ctx resp cn em ey cv cache hp h1 hs
    exact worldpay_auth_of_pre9_error cn em ey cv cache
      (pre9_of_pre4_error (pre4_stop3 hp (handleReq_bad_status h1 hs)))
  · intro env ctx oe cn em ey cv cache hp h1
    exact worldpay_auth_of_pre9_error cn em ey cv cache
      (pre9_of_pre4_error (pre4_stop3 hp (handleReq_exc h1)))
  · intro env ctx resp cn em ey cv cache hp h1 hs
    exact worldpay_auth_of_pre9_error cn em ey cv cache
      (pre9_of_pre8_error (pre8_of_pre7_error (pre7_of_pre6_error
        (pre6_of_pre5_error (pre5_stop4 hp (handleReq_bad_status h1 hs))))))
  · intro env ctx oe cn em ey cv cache hp h1
    exact worldpay_auth_of_pre9_error cn em ey cv cache
      (pre9_of_pre8_error (pre8_of_pre7_error (pre7_of_pre6_error
        (pre6_of_pre5_error (pre5_stop4 hp (handleReq_exc h1))))))
  · intro env ctx resp cn em ey cv cache hp h1 hs
    exact worldpay_auth_of_pre9_error cn em ey cv cache
      (pre9_of_pre8_error (pre8_of_pre7_error (pre7_of_pre6_error
        (pre6_stop5 hp (handleReq_bad_status h1 hs)))))
  · intro env ctx oe cn em ey cv cache hp h1
    exact worldpay_auth_of_pre9_error cn em ey cv cache
      (pre9_of_pre8_error (pre8_of_pre7_error (pre7_of_pre6_error
        (pre6_stop5 hp (handleReq_exc h1)))))
  · intro env ctx resp cn em ey cv cache hp h1 hs
    exact worldpay_auth_of_pre9_error cn em ey cv cache
      (pre9_of_pre8_error (pre8_of_pre7_error
        (pre7_stop6 hp (handleReq_bad_status h1 hs))))
  · intro env ctx oe cn em ey cv cache hp h1
    exact worldpay_auth_of_pre9_error cn em ey cv cache
      (pre9_of_pre8_error (pre8_of_pre7_error
        (pre7_stop6 hp (handleReq_exc h1))))
  · intro env ctx resp cn em ey cv cache hp h1 hs
    exact worldpay_auth_of_pre9_error cn em ey cv cache
      (pre9_of_pre8_error (pre8_stop7 hp (handleReq_bad_status h1 hs)))
  · intro env ctx oe cn em ey cv cache hp h1
    exact worldpay_auth_of_pre9_error cn em ey cv cache
      (pre9_of_pre8_error (pre8_stop7 hp (handleReq_exc h1)))
  · intro env ctx resp cn em ey cv cache hp h1 hs
    exact worldpay_auth_of_pre9_error cn em ey cv cache
      (pre9_stop8 hp (handleReq_bad_status h1 hs))
  · intro env ctx oe cn em ey cv cache hp h1
    exact worldpay_auth_of_pre9_error cn em ey cv cache
      (pre9_stop8 hp (handleReq_exc h1))
  · intro env sd resp cn em ey cv cache hp h1 hs
    exact worldpay_auth_step9 cn em ey cv cache hp (handleReq_bad_status h1 hs)
  · intro env sd oe cn em ey cv cache hp h1
    exact worldpay_auth_step9 cn em ey cv cache hp (handleReq_exc h1)

/-- Witness for C4: a concrete flow whose first request answers with status
500 stops with `("error", "Request 1 failed")` and an unchanged cache. -/
theorem c4_flow_error_handling_witness :
    worldpay_auth (exFlowEnv 500) "4111111111111111" "12" "25" "123" exCache =
      (("error", "Request 1 failed"), exCache) :=
  c4_flow_error_handling.2.1 (exFlowEnv 500) (exResp 500)
    "4111111111111111" "12" "25" "123" exCache rfl (by decide)

/-- C1: `get_session` returns the stored record exactly when
`now - timestamp < 1800`; at 1800 seconds or more it deletes the entry and
returns `None`; with no entry for the key it returns `None`. -/
theorem c1_get_session_expiry :
    (∀ (st : SessionCacheState) (now : Int) (store_id : Nat) (s : SessionData),
      st.sessions.lookup (toString store_id) = some s →
      (now - (s.timestamp.getD 0) < 1800 →
        get_session st now store_id = (some s, st)) ∧
      (1800 ≤ now - (s.timestamp.getD 0) →
        get_session st now store_id =
          (Option.none,
            { st with sessions := eraseKey st.sessions (toString store_id) }))) ∧
    (∀ (st : SessionCacheState) (now : Int) (store_id : Nat),
      st.sessions.lookup (toString store_id) = Option.none →
      get_session st now store_id = (Option.none, st)) := by
  constructor
  · intro st now sid s h
    constructor
    · intro hf
      simp only [get_session, h]
      rw [if_pos hf]
    · intro hf
      simp only [get_session, h]
      rw [if_neg (not_lt.mpr hf)]
  · intro st now sid h
    simp only [get_session, h]

/-- Witness for C1: a fresh session (saved at time 0, read at time 10) is
returned unchanged; state untouched. -/
theorem c1_get_session_expiry_witness :
    get_session (SessionCache.init exDisk) 10 1021 =
      (some exSession, SessionCache.init exDisk) :=
  (c1_get_session_expiry.1 (SessionCache.init exDisk) 10 1021 exSession
    rfl).1 (by decide)

theorem lookup_setKey (m : CacheMap) (k : String) (v : SessionData) :
    (setKey m k v).lookup k = some v := by
  simp [setKey, List.lookup]

/-- C7: `save_session` stores the record (with the save time added as its
`timestamp`) under the string form of the store id, and a `get_session`
within 1800 seconds returns exactly that record; `save_cache` swallows write
failures (state unchanged) and `load_cache` swallows load failures (resetting
the in-memory dict to empty), so no cache operation raises. -/
theorem c7_cache_roundtrip :
    (∀ (st : SessionCacheState) (store_id : Nat) (data : SessionData)
      (now now2 : Int) (wf : Bool), now2 - now < 1800 →
      get_session (save_session st store_id data now wf) now2 store_id =
        (some { data with timestamp := some now },
         save_session st store_id data now wf)) ∧
    (∀ (st : SessionCacheState) (store_id : Nat) (data : SessionData)
      (now : Int) (wf : Bool),
      (save_session st store_id data now wf).sessions.lookup
          (toString store_id) =
        some { data with timestamp := some now }) ∧
    (∀ (s : CacheMap) (d : DiskState), save_cache s d true = d) ∧
    (∀ (s : CacheMap) (d : DiskState), save_cache s d false = some (.ok s)) ∧
    (∀ (cur : CacheMap) (e : String),
      load_cache cur (some (.error e)) = []) ∧
    (∀ cur : CacheMap, load_cache cur Option.none = cur) ∧
    (∀ (cur m : CacheMap), load_cache cur (some (.ok m)) = m) := by
  refine ⟨?_, ?_, ?_, ?_, ?_, ?_, ?_⟩
  · intro st sid data now now2 wf hf
    simp only [get_session, save_session]
    rw [lookup_setKey]
    simp only [Option.getD_some]
    rw [if_pos (by omega)]
  · intro st sid data now wf
    simp only [save_session]
    exact lookup_setKey _ _ _
  · intro s d; simp [save_cache]
  · intro s d; simp [save_cache]
  · intro cur e; rfl
  · intro cur; rfl
  · intro cur m; rfl

/-- Witness for C7: saving a record at time 0 into the empty cache and
reading it back at time 1799 yields the record with its timestamp set. -/
theorem c7_cache_roundtrip_witness :
    get_session (save_session exCache 1021 exSession 0 false) 1799 1021 =
      (some { exSession with timestamp := some 0 },
       save_session exCache 1021 exSession 0 false) :=
  c7_cache_roundtrip.1 exCache 1021 exSession 0 1799 false (by decide)

/-- C2: the wrapper built by `retry_request(3, delay, listed)` (as used by
`request_with_retry`, with delay 1) invokes the wrapped call at most 3 times,
returns the value of the first invocation that succeeds, sleeps the same
constant delay between consecutive attempts (one sleep fewer than the number
of invocations), and after three consecutive listed failures re-raises the
last exception caught. -/
theorem c2_retry_policy :
    (∀ (α : Type) (func : Nat → Except PyExc α),
      (request_with_retry func).2.1 ≤ 3) ∧
    (∀ (α : Type) (func : Nat → Except PyExc α),
      (request_with_retry func).2.2 =
        List.replicate ((request_with_retry func).2.1 - 1) 1) ∧
    (∀ (α : Type) (func : Nat → Except PyExc α) (a : α),
      func 1 = .ok a → request_with_retry func = (.ok a, 1, [])) ∧
    (∀ (α : Type) (func : Nat → Except PyExc α) (e1 : PyExc) (a : α),
      func 1 = .error e1 → isListedExc e1 = true → func 2 = .ok a →
      request_with_retry func = (.ok a, 2, [1])) ∧
    (∀ (α : Type) (func : Nat → Except PyExc α) (e1 e2 : PyExc) (a : α),
      func 1 = .error e1 → isListedExc e1 = true →
      func 2 = .error e2 → isListedExc e2 = true → func 3 = .ok a →
      request_with_retry func = (.ok a, 3, [1, 1])) ∧
    (∀ (α : Type) (func : Nat → Except PyExc α) (e1 e2 e3 : PyExc),
      func 1 = .error e1 → isListedExc e1 = true →
      func 2 = .error e2 → isListedExc e2 = true →
      func 3 = .error e3 → isListedExc e3 = true →
      request_with_retry func = (.error (some e3), 3, [1, 1])) := by
  refine ⟨?_, ?_, ?_, ?_, ?_, ?_⟩
  · intro α func
    unfold request_with_retry retry_request
    cases h1 : func 1 with
    | ok a => simp [retryGo, h1]
    | error e1 =>
      by_cases l1 : isListedExc e1
      · cases h2 : func 2 with
        | ok a => simp [retryGo, h1, h2, l1]
        | error e2 =>
          by_cases l2 : isListedExc e2
          · cases h3 : func 3 with
            | ok a => simp [retryGo, h1, h2, h3, l1, l2]
            | error e3 =>
              by_cases l3 : isListedExc e3 <;>
                simp [retryGo, h1, h2, h3, l1, l2, l3]
          · simp [retryGo, h1, h2, l1, l2]
      · simp [retryGo, h1, l1]
  · intro α func
    unfold request_with_retry retry_request
    cases h1 : func 1 with
    | ok a => simp [retryGo, h1]
    | error e1 =>
      by_cases l1 : isListedExc e1
      · cases h2 : func 2 with
        | ok a => simp [retryGo, h1, h2, l1]
        | error e2 =>
          by_cases l2 : isListedExc e2
          · cases h3 : func 3 with
            | ok a => simp [retryGo, h1, h2, h3, l1, l2, List.replicate]
            | error e3 =>
              by_cases l3 : isListedExc e3 <;>
                simp [retryGo, h1, h2, h3, l1, l2, l3, List.replicate]
          · simp [retryGo, h1, h2, l1, l2]
      · simp [retryGo, h1, l1]
  · intro α func a h1
    unfold request_with_retry retry_request
    simp [retryGo, h1]
  · intro α func e1 a h1 l1 h2
    unfold request_with_retry retry_request
    simp [retryGo, h1, h2, l1]
  · intro α func e1 e2 a h1 l1 h2 l2 h3
    unfold request_with_retry retry_request
    simp [retryGo, h1, h2, h3, l1, l2]
  · intro α func e1 e2 e3 h1 l1 h2 l2 h3 l3
    unfold request_with_retry retry_request
    simp [retryGo, h1, h2, h3, l1, l2, l3]

/-- Witness for C2: a call that times out twice and succeeds on the third
attempt returns that success after 3 invocations and 2 unit sleeps. -/
theorem c2_retry_policy_witness :
    request_with_retry
        (fun attempt => if attempt < 3 then .error (.httpxTimeout "t")
          else .ok (0 : Nat)) =
      (.ok 0, 3, [1, 1]) :=
  c2_retry_policy.2.2.2.2.1 Nat _ (.httpxTimeout "t") (.httpxTimeout "t") 0
    rfl rfl rfl rfl rfl

theorem isPrefixOf_iff_exists :
    ∀ (n l : List Char), n.isPrefixOf l = true ↔ ∃ t, l = n ++ t := by
  intro n
  induction n with
  | nil => intro l; simp [List.isPrefixOf]
  | cons a as ih =>
    intro l
    cases l with
    | nil => simp [List.isPrefixOf]
    | cons b bs =>
      simp only [List.isPrefixOf, Bool.and_eq_true, beq_iff_eq, List.cons_append,
        List.cons.injEq, ih bs]
      constructor
      · rintro ⟨hab, t, ht⟩
        exact ⟨t, hab.symm, ht⟩
      · rintro ⟨t, hba, ht⟩
        exact ⟨hba.symm, t, ht⟩

theorem hasInfix_iff (n : List Char) :
    ∀ h : List Char, hasInfix n h = true ↔ ∃ l r, h = l ++ n ++ r := by
  intro h
  induction h with
  | nil =>
    simp only [hasInfix]
    constructor
    · intro he
      refine ⟨[], [], ?_⟩
      rw [List.isEmpty_iff.mp he]
      rfl
    · rintro ⟨l, r, hr⟩
      have hr' := hr.symm
      simp only [List.append_assoc, List.append_eq_nil] at hr'
      rw [hr'.2.1]
      rfl
  | cons c cs ih =>
    simp only [hasInfix, Bool.or_eq_true, ih, isPrefixOf_iff_exists]
    constructor
    · rintro (⟨t, ht⟩ | ⟨l, r, hr⟩)
      · exact ⟨[], t, by simpa using ht⟩
      · exact ⟨c :: l, r, by simp [hr]⟩
    · rintro ⟨l, r, hr⟩
      cases l with
      | nil => exact Or.inl ⟨r, by simpa using hr⟩
      | cons x xs =>
        simp only [List.cons_append, List.cons.injEq] at hr
        exact Or.inr ⟨xs, r, hr.2⟩

theorem splitFirst_eq_none {sep : List Char} (hsep : sep ≠ []) :
    ∀ l, hasInfix sep l = false → splitFirst sep l = Option.none := by
  intro l
  induction l with
  | nil =>
    intro h
    have he : sep.isEmpty = false := by
      cases sep with
      | nil => exact absurd rfl hsep
      | cons a as => rfl
    simp [splitFirst, he]
  | cons c cs ih =>
    intro h
    simp only [hasInfix, Bool.or_eq_false_iff] at h
    simp [splitFirst, h.1, ih h.2]

theorem splitFirst_at_sep (post : List Char) :
    splitFirst [':', ' '] ([':', ' '] ++ post) = some ([], post) := by
  simp [splitFirst, List.isPrefixOf]

theorem splitFirst_colonSpace (pre post : List Char)
    (h : hasInfix [':', ' '] pre = false) :
    splitFirst [':', ' '] (pre ++ [':', ' '] ++ post) = some (pre, post) := by
  induction pre with
  | nil => simpa using splitFirst_at_sep post
  | cons c cp ih =>
    have hsplit : ([':', ' '].isPrefixOf (c :: cp) || hasInfix [':', ' '] cp)
        = false := h
    rw [Bool.or_eq_false_iff] at hsplit
    have h2 : hasInfix [':', ' '] cp = false := hsplit.2
    have hnp : [':', ' '].isPrefixOf (c :: (cp ++ [':', ' '] ++ post))
        = false := by
      show ((':' == c) && [' '].isPrefixOf (cp ++ [':', ' '] ++ post)) = false
      by_cases hc : c = ':'
      · subst hc
        cases cp with
        | nil =>
          show ((':' == ':') && ((' ' == ':') &&
            List.isPrefixOf [] (' ' :: post))) = false
          rw [show (' ' == ':') = false from by decide]
          simp
        | cons d dp =>
          by_cases hd : d = ' '
          · subst hd
            have htrue : [':', ' '].isPrefixOf (':' :: ' ' :: dp) = true := by
              show ((':' == ':') && ((' ' == ' ') &&
                List.isPrefixOf [] dp)) = true
              rw [show (':' == ':') = true from by decide,
                show (' ' == ' ') = true from by decide]
              simp [List.isPrefixOf]
            exact Bool.noConfusion (htrue.symm.trans hsplit.1)
          · have hdb : (' ' == d) = false :=
              beq_eq_false_iff_ne.mpr fun hh => hd hh.symm
            show ((':' == ':') && ((' ' == d) && List.isPrefixOf []
              (dp ++ [':', ' '] ++ post))) = false
            rw [hdb]
            simp
      · have hcb : (':' == c) = false :=
          beq_eq_false_iff_ne.mpr fun hh => hc hh.symm
        rw [hcb]
        simp
    calc splitFirst [':', ' '] ((c :: cp) ++ [':', ' '] ++ post)
        = (splitFirst [':', ' '] (cp ++ [':', ' '] ++ post)).map
            fun p => (c :: p.1, p.2) := by
          simp only [List.cons_append, splitFirst]
          have hnp' : [':', ' '].isPrefixOf
              (c :: (cp.append [':', ' ']).append post) = false := hnp
          simp only [hnp', Bool.false_eq_true, if_false]
          rfl
      _ = some (c :: cp, post) := by rw [ih h2]; rfl

/-- C3: a 200 payment-page response with no error span classifies as
`("approved", "Card added successfully.")`; with an error span, the message
is the span text with everything up to the first `": "` stripped (when `": "`
occurs), and the status is `"approved"` exactly when the message contains the
substring `"CVV2"`, else `"declined"`; `pyIn` is genuine substring
containment; and the cached-session path and the full-flow path classify
identically. -/
theorem c3_classification :
    (∀ o : Option String, classify_cached o = classify_full o) ∧
    (classify_full Option.none = ("approved", "Card added successfully.")) ∧
    (∀ n h : String, pyIn n h = true ↔ ∃ l r, h.toList = l ++ n.toList ++ r) ∧
    (∀ t : String, pyIn ": " t = false →
      classify_full (some t) =
        (if pyIn "CVV2" t then "approved" else "declined", t)) ∧
    (∀ pre post : List Char, hasInfix [':', ' '] pre = false →
      classify_full (some (String.mk (pre ++ [':', ' '] ++ post))) =
        (if pyIn "CVV2" (String.mk post) then "approved" else "declined",
         String.mk post)) := by
  refine ⟨?_, rfl, ?_, ?_, ?_⟩
  · exact classify_cached_eq_full
  · intro n h; exact hasInfix_iff n.toList h.toList
  · intro t ht
    have hnone : splitFirst [':', ' '] t.toList = Option.none :=
      splitFirst_eq_none (by simp) t.toList ht
    simp only [classify_full, stripErrMessage, hnone]
    by_cases hc : pyIn "CVV2" t
    · simp [hc]
    · simp [hc]
  · intro pre post h
    have hfound : splitFirst [':', ' '] (String.mk (pre ++ [':', ' '] ++ post)).toList
        = some (pre, post) := splitFirst_colonSpace pre post h
    simp only [classify_full, stripErrMessage, hfound]
    by_cases hc : pyIn "CVV2" (String.mk post)
    · simp [hc]
    · simp [hc]

/-- Witness for C3: the span text `"Error: Insufficient funds"` is stripped to
`"Insufficient funds"` (no `"CVV2"` inside) and classifies as declined. -/
theorem c3_classification_witness :
    classify_full
        (some (String.mk ("Error".toList ++ [':', ' '] ++
          "Insufficient funds".toList))) =
      (if pyIn "CVV2" (String.mk "Insufficient funds".toList) then "approved"
        else "declined", String.mk "Insufficient funds".toList) :=
  c3_classification.2.2.2.2 "Error".toList "Insufficient funds".toList
    (by decide)

theorem takeWhile_append_stop {p : Char → Bool} {c : Char} (hc : p c = false) :
    ∀ (xs b : List Char), (xs ++ c :: b).takeWhile p = xs.takeWhile p := by
  intro xs b
  induction xs with
  | nil => simp [List.takeWhile, hc]
  | cons x xt ih =>
    cases hx : p x <;> simp [List.takeWhile, hx, ih]

theorem dropWhile_append_stop {p : Char → Bool} {c : Char} (hc : p c = false) :
    ∀ (xs b : List Char),
      (xs ++ c :: b).dropWhile p = xs.dropWhile p ++ c :: b := by
  intro xs b
  induction xs with
  | nil => simp [List.dropWhile, hc]
  | cons x xt ih =>
    cases hx : p x <;> simp [List.dropWhile, hx, ih]

theorem digitRunsAcc_spec :
    ∀ (l acc : List Char), acc ≠ [] →
      digitRunsAcc l acc =
        (acc ++ l.takeWhile Char.isDigit) ::
          digitRuns (l.dropWhile Char.isDigit) := by
  intro l
  induction l with
  | nil =>
    intro acc hacc
    have : acc.isEmpty = false := by
      cases acc with
      | nil => exact absurd rfl hacc
      | cons a as => rfl
    simp [digitRunsAcc, digitRuns, this]
  | cons c cs ih =>
    intro acc hacc
    have he : acc.isEmpty = false := by
      cases acc with
      | nil => exact absurd rfl hacc
      | cons a as => rfl
    by_cases hc : c.isDigit
    · rw [show digitRunsAcc (c :: cs) acc = digitRunsAcc cs (acc ++ [c]) from
        by simp [digitRunsAcc, hc]]
      rw [ih (acc ++ [c]) (by simp)]
      simp [List.takeWhile_cons, List.dropWhile_cons, hc]
    · have hc' : c.isDigit = false := Bool.eq_false_iff.mpr hc
      rw [show digitRunsAcc (c :: cs) acc = acc :: digitRunsAcc cs [] from
        by simp [digitRunsAcc, hc', he]]
      have htail : digitRuns (c :: cs) = digitRunsAcc cs [] := by
        simp [digitRuns, digitRunsAcc, hc']
      simp [List.takeWhile_cons, List.dropWhile_cons, hc', htail]

theorem digitRuns_cons_digit {x : Char} (hx : x.isDigit = true)
    (l : List Char) :
    digitRuns (x :: l) =
      (x :: l.takeWhile Char.isDigit) :: digitRuns (l.dropWhile Char.isDigit)
    := by
  rw [show digitRuns (x :: l) = digitRunsAcc l [x] from
    by simp [digitRuns, digitRunsAcc, hx]]
  rw [digitRunsAcc_spec l [x] (by simp)]
  rfl

theorem digitRuns_cons_nondigit {x : Char} (hx : x.isDigit = false)
    (l : List Char) : digitRuns (x :: l) = digitRuns l := by
  simp [digitRuns, digitRunsAcc, hx]

theorem digitRuns_append_stop {c : Char} (hc : c.isDigit = false) :
    ∀ (a b : List Char), digitRuns (a ++ c :: b) = digitRuns a ++ digitRuns b
    := by
  suffices H : ∀ (n : Nat) (a b : List Char), a.length ≤ n →
      digitRuns (a ++ c :: b) = digitRuns a ++ digitRuns b by
    intro a b
    exact H a.length a b le_rfl
  intro n
  induction n with
  | zero =>
    intro a b ha
    have : a = [] := List.eq_nil_of_length_eq_zero (Nat.le_zero.mp ha)
    subst this
    rw [List.nil_append, digitRuns_cons_nondigit hc]
    simp [digitRuns, digitRunsAcc]
  | succ n ih =>
    intro a b ha
    cases a with
    | nil =>
      rw [List.nil_append, digitRuns_cons_nondigit hc]
      simp [digitRuns, digitRunsAcc]
    | cons x xs =>
      by_cases hx : x.isDigit
      · rw [List.cons_append, digitRuns_cons_digit hx,
          digitRuns_cons_digit hx xs, takeWhile_append_stop hc,
          dropWhile_append_stop hc, List.cons_append]
        rw [ih (xs.dropWhile Char.isDigit) b
          (le_trans (List.dropWhile_sublist _).length_le
            (Nat.le_of_succ_le_succ ha))]
      · rw [List.cons_append,
          digitRuns_cons_nondigit (Bool.eq_false_iff.mpr hx),
          digitRuns_cons_nondigit (Bool.eq_false_iff.mpr hx) xs]
        exact ih xs b (Nat.le_of_succ_le_succ ha)

theorem digitRuns_sound :
    ∀ (s r : List Char), r ∈ digitRuns s →
      r ≠ [] ∧ ∀ ch ∈ r, ch.isDigit = true := by
  suffices H : ∀ (n : Nat) (s : List Char), s.length ≤ n → ∀ r ∈ digitRuns s,
      r ≠ [] ∧ ∀ ch ∈ r, ch.isDigit = true by
    intro s r hr
    exact H s.length s le_rfl r hr
  intro n
  induction n with
  | zero =>
    intro s hs r hr
    have : s = [] := List.eq_nil_of_length_eq_zero (Nat.le_zero.mp hs)
    subst this
    simp [digitRuns, digitRunsAcc] at hr
  | succ n ih =>
    intro s hs r hr
    cases s with
    | nil => simp [digitRuns, digitRunsAcc] at hr
    | cons x xs =>
      by_cases hx : x.isDigit
      · rw [digitRuns_cons_digit hx] at hr
        rcases List.mem_cons.mp hr with hr | hr
        · subst hr
          refine ⟨by simp, ?_⟩
          intro ch hch
          rcases List.mem_cons.mp hch with hch | hch
          · rw [hch]; exact hx
          · have hall : (xs.takeWhile Char.isDigit).all Char.isDigit = true :=
              List.all_takeWhile
            rw [List.all_eq_true] at hall
            exact hall ch hch
        · exact ih (xs.dropWhile Char.isDigit)
            (le_trans (List.dropWhile_sublist _).length_le
              (Nat.le_of_succ_le_succ hs)) r hr
      · rw [digitRuns_cons_nondigit (Bool.eq_false_iff.mpr hx)] at hr
        exact ih xs (Nat.le_of_succ_le_succ hs) r hr

/-- C8: `parse_card` returns exactly the first four maximal digit runs of its
input, in order (any non-digit character is a delimiter; runs past the fourth
are ignored), and raises `ValueError` with the fixed format message when
there are fewer than four runs.  The last two conjuncts pin down that
`digitRuns` really computes maximal runs: splitting at any non-digit
character splits the run list, and every run is a nonempty all-digit chunk. -/
theorem c8_parse_card :
    (∀ (s : String) (a b c d : List Char) (rest : List (List Char)),
      digitRuns s.toList = a :: b :: c :: d :: rest →
      parse_card s = .ok (String.mk a, String.mk b, String.mk c, String.mk d)) ∧
    (∀ s : String, (digitRuns s.toList).length < 4 →
      parse_card s = .error (.valueError
        "Card format is incorrect. Expected format: card_number|exp_month|exp_year|cvv")) ∧
    (∀ (a : List Char) (ch : Char) (b : List Char), ch.isDigit = false →
      digitRuns (a ++ ch :: b) = digitRuns a ++ digitRuns b) ∧
    (∀ (s r : List Char), r ∈ digitRuns s →
      r ≠ [] ∧ ∀ ch ∈ r, ch.isDigit = true) := by
  refine ⟨?_, ?_, ?_, ?_⟩
  · intro s a b c d rest h
    simp only [parse_card, h]
  · intro s h
    unfold parse_card
    split
    · rename_i a b c d rest heq
      rw [heq] at h
      simp only [List.length_cons] at h
      omega
    · rfl
  · intro a ch b hch
    exact digitRuns_append_stop hch a b
  · exact digitRuns_sound

/-- Witness for C8: delimiters other than the pipe work, and the fifth run is
ignored. -/
theorem c8_parse_card_witness :
    parse_card "4111a12.25 123,9" = .ok ("4111", "12", "25", "123") :=
  c8_parse_card.1 "4111a12.25 123,9" "4111".toList "12".toList "25".toList
    "123".toList ["9".toList] (by decide)

theorem zfillL_of_digits {l : List Char} (h : ∀ ch ∈ l, ch.isDigit = true)
    (width : Nat) :
    zfillL l width = List.replicate (width - l.length) '0' ++ l := by
  cases l with
  | nil => simp [zfillL]
  | cons c rest =>
    have hc : c.isDigit = true := h c (List.mem_cons_self c rest)
    have hsign : ¬(c = '+' ∨ c = '-') := by
      rintro (rfl | rfl) <;> exact Bool.noConfusion hc
    show (if c = '+' ∨ c = '-' then
        c :: (List.replicate (width - (c :: rest).length) '0' ++ rest)
      else List.replicate (width - (c :: rest).length) '0' ++ (c :: rest)) = _
    rw [if_neg hsign]

theorem zfill_of_digits {s : String} (h : ∀ ch ∈ s.toList, ch.isDigit = true)
    (width : Nat) :
    (zfill s width).toList =
      List.replicate (width - s.length) '0' ++ s.toList := by
  show zfillL s.toList width = _
  rw [zfillL_of_digits h width]
  rfl

/-- C10: the card fields submitted by the cached-session path and the
full-flow path are built identically: the card number is unmodified, the
month is left-zero-padded to 2 characters, the CVV to 3, and the expiration
year is sent unchanged when it has exactly 2 characters and as its last 2
characters otherwise. -/
theorem c10_card_normalization :
    (∀ cn em ey cv : String,
      mkCardFieldsCached cn em ey cv = mkCardFieldsFull cn em ey cv) ∧
    (∀ cn em ey cv : String, (mkCardFieldsFull cn em ey cv).cardNumber = cn) ∧
    (∀ cn em ey cv : String, (∀ ch ∈ em.toList, ch.isDigit = true) →
      (mkCardFieldsFull cn em ey cv).ddlExpirationMonth.toList =
        List.replicate (2 - em.length) '0' ++ em.toList) ∧
    (∀ cn em ey cv : String, (∀ ch ∈ cv.toList, ch.isDigit = true) →
      (mkCardFieldsFull cn em ey cv).CVV.toList =
        List.replicate (3 - cv.length) '0' ++ cv.toList) ∧
    (∀ cn em ey cv : String, ey.length = 2 →
      (mkCardFieldsFull cn em ey cv).ddlExpirationYear = ey) ∧
    (∀ (cn em cv : String) (p sfx : List Char), sfx.length = 2 → p ≠ [] →
      (mkCardFieldsFull cn em (String.mk (p ++ sfx)) cv).ddlExpirationYear =
        String.mk sfx) := by
  refine ⟨?_, ?_, ?_, ?_, ?_, ?_⟩
  · intro cn em ey cv; rfl
  · intro cn em ey cv; rfl
  · intro cn em ey cv h
    exact zfill_of_digits h 2
  · intro cn em ey cv h
    exact zfill_of_digits h 3
  · intro cn em ey cv h
    simp [mkCardFieldsFull, h]
  · intro cn em cv p sfx hs hp
    have hlen : (String.mk (p ++ sfx)).length = p.length + 2 := by
      show (p ++ sfx).length = _
      rw [List.length_append, hs]
    have hne : (String.mk (p ++ sfx)).length ≠ 2 := by
      rw [hlen]
      cases p with
      | nil => exact absurd rfl hp
      | cons a as => simp
    simp only [mkCardFieldsFull, if_neg hne, lastTwo]
    have hdata : (String.mk (p ++ sfx)).toList = p ++ sfx := rfl
    rw [hdata, List.length_append, hs]
    have : p.length + 2 - 2 = p.length := by omega
    rw [this, List.drop_left]

/-- Witness for C10: month `"5"` is padded to `"05"` in both submissions. -/
theorem c10_card_normalization_witness :
    (mkCardFieldsFull "4111111111111111" "5" "2026" "99").ddlExpirationMonth.toList =
      List.replicate (2 - ("5" : String).length) '0' ++ ("5" : String).toList :=
  c10_card_normalization.2.2.1 "4111111111111111" "5" "2026" "99" (by decide)

theorem parse_card_error_shape {card : String} {e : PyExc}
    (h : parse_card card = .error e) :
    e = .valueError
      "Card format is incorrect. Expected format: card_number|exp_month|exp_year|cvv"
    := by
  unfold parse_card at h
  split at h
  · exact absurd h (by simp)
  · injection h with h'
    exact h'.symm

theorem wc_ok_isSome :
    ∀ (wenv : WCEnv) (card : String) (uc : Bool)
      (o : Option (String × String)) (st : SessionCacheState),
      worldpay_auth_with_cache wenv card uc = .ok (o, st) → o.isSome = true := by
  intro wenv card uc o st h
  unfold worldpay_auth_with_cache at h
  split at h
  · exact absurd h (by simp)
  · dsimp only at h
    repeat' split at h
    all_goals
      simp only [Except.ok.injEq, Prod.mk.injEq] at h
      rw [← h.1]
      rfl

theorem wc_error_shape {wenv : WCEnv} {card : String} {uc : Bool} {e : PyExc}
    (h : worldpay_auth_with_cache wenv card uc = .error e) :
    e = .valueError
      "Card format is incorrect. Expected format: card_number|exp_month|exp_year|cvv"
    := by
  unfold worldpay_auth_with_cache at h
  split at h
  · rename_i e' hp
    injection h with h'
    rw [← h']
    exact parse_card_error_shape hp
  · dsimp only at h
    repeat' split at h
    all_goals exact absurd h (by simp)

theorem wc_quick_ok (wenv : WCEnv) {card : String}
    {cn em ey cv : String} {sess : SessionData} {st1 : SessionCacheState}
    {r : String × String}
    (hp : parse_card card = .ok (cn, em, ey, cv))
    (hg : get_session (SessionCache.init wenv.disk) wenv.now 1021 =
      (some sess, st1))
    (hv : verify_card_with_cached_session wenv.venv cn em ey cv sess = some r) :
    worldpay_auth_with_cache wenv card true = .ok (some r, st1) := by
  unfold worldpay_auth_with_cache
  rw [hp]
  dsimp only
  rw [if_pos rfl, hg]
  dsimp only
  rw [hv]

theorem wc_quick_none_full (wenv : WCEnv) {card : String}
    {cn em ey cv : String} {sess : SessionData} {st1 st2 : SessionCacheState}
    {r2 : String × String}
    (hp : parse_card card = .ok (cn, em, ey, cv))
    (hg : get_session (SessionCache.init wenv.disk) wenv.now 1021 =
      (some sess, st1))
    (hv : verify_card_with_cached_session wenv.venv cn em ey cv sess =
      Option.none)
    (hw : worldpay_auth wenv.fenv cn em ey cv st1 = (r2, st2)) :
    worldpay_auth_with_cache wenv card true = .ok (some r2, st2) := by
  unfold worldpay_auth_with_cache
  rw [hp]
  dsimp only
  rw [if_pos rfl, hg]
  dsimp only
  rw [hv]
  dsimp only
  rw [hw]

theorem check_card_of_format_bad (e1 e2 : WCEnv) (t : Int) (cc : String)
    (hfmt : cc = "" ∨ !(pyIn "|" cc)) :
    check_card e1 e2 t cc =
      .jsonResp 500 false cc "ERROR"
        "400: Invalid card format. Use: card_number|exp_month|exp_year|cvv" t
    := by
  unfold check_card
  rw [if_pos hfmt]
  rfl

theorem check_card_of_quick_ok (e1 e2 : WCEnv) (t : Int) (cc : String)
    (r : String × String) (st : SessionCacheState)
    (hfmt : ¬(cc = "" ∨ !(pyIn "|" cc)))
    (hw : worldpay_auth_with_cache e1 cc true = .ok (some r, st)) :
    check_card e1 e2 t cc = .jsonResp 200 true cc r.1.toUpper r.2 t := by
  obtain ⟨rs, rm⟩ := r
  unfold check_card
  rw [if_neg hfmt, hw]
  rfl

theorem check_card_of_value_error (e1 e2 : WCEnv) (t : Int) (cc : String)
    (m : String) (hfmt : ¬(cc = "" ∨ !(pyIn "|" cc)))
    (hw : worldpay_auth_with_cache e1 cc true = .error (.valueError m)) :
    check_card e1 e2 t cc = .httpError 400 m := by
  unfold check_card
  rw [if_neg hfmt, hw]
  rfl

/-- C5: with caching enabled and a fresh cached session present, if the quick
verification yields `None` (non-200 status or an exception), the invocation
returns exactly the full flow's `(status, message)` pair; if the quick
verification succeeds, its result is returned and the full-flow environment
is never consulted. -/
theorem c5_cached_fallback :
    (∀ (wenv : WCEnv) (card cn em ey cv : String) (sess : SessionData)
      (st1 st2 : SessionCacheState) (r2 : String × String),
      parse_card card = .ok (cn, em, ey, cv) →
      get_session (SessionCache.init wenv.disk) wenv.now 1021 =
        (some sess, st1) →
      verify_card_with_cached_session wenv.venv cn em ey cv sess =
        Option.none →
      worldpay_auth wenv.fenv cn em ey cv st1 = (r2, st2) →
      worldpay_auth_with_cache wenv card true = .ok (some r2, st2)) ∧
    (∀ (wenv : WCEnv) (card cn em ey cv : String) (sess : SessionData)
      (st1 : SessionCacheState) (r : String × String),
      parse_card card = .ok (cn, em, ey, cv) →
      get_session (SessionCache.init wenv.disk) wenv.now 1021 =
        (some sess, st1) →
      verify_card_with_cached_session wenv.venv cn em ey cv sess = some r →
      worldpay_auth_with_cache wenv card true = .ok (some r, st1)) ∧
    (∀ (wenv : WCEnv) (fenv' : FlowEnv) (card cn em ey cv : String)
      (sess : SessionData) (st1 : SessionCacheState) (r : String × String),
      parse_card card = .ok (cn, em, ey, cv) →
      get_session (SessionCache.init wenv.disk) wenv.now 1021 =
        (some sess, st1) →
      verify_card_with_cached_session wenv.venv cn em ey cv sess = some r →
      worldpay_auth_with_cache { wenv with fenv := fenv' } card true =
        worldpay_auth_with_cache wenv card true) := by
  refine ⟨?_, ?_, ?_⟩
  · intro wenv card cn em ey cv sess st1 st2 r2 hp hg hv hw
    exact wc_quick_none_full wenv hp hg hv hw
  · intro wenv card cn em ey cv sess st1 r hp hg hv
    exact wc_quick_ok wenv hp hg hv
  · intro wenv fenv' card cn em ey cv sess st1 r hp hg hv
    exact (wc_quick_ok { wenv with fenv := fenv' } hp hg hv).trans
      (wc_quick_ok wenv hp hg hv).symm

/-- Witness for C5: with a fresh cached session and every request answered
with status 500, the quick verification fails and the result is the full
flow's `("error", "Request 1 failed")`. -/
theorem c5_cached_fallback_witness :
    worldpay_auth_with_cache (exWCEnv 500) "4111x12x25x123" true =
      .ok (some ("error", "Request 1 failed"), SessionCache.init exDisk) :=
  c5_cached_fallback.1 (exWCEnv 500) "4111x12x25x123" "4111" "12" "25" "123"
    exSession (SessionCache.init exDisk) (SessionCache.init exDisk)
    ("error", "Request 1 failed") rfl rfl rfl rfl

/-- C9: `worldpay_auth_with_cache` never returns `None` — every non-raising
invocation yields `some (status, message)` — so in `check_card` the branch
guarded by `result is None` can never run (the response never depends on the
second environment) and the HTTP-500 `"Failed to process card"` response is
unreachable. -/
theorem c9_no_none_result :
    (∀ (wenv : WCEnv) (card : String) (uc : Bool)
      (o : Option (String × String)) (st : SessionCacheState),
      worldpay_auth_with_cache wenv card uc = .ok (o, st) →
      o.isSome = true) ∧
    (∀ (e1 e2 : WCEnv) (t : Int) (cc : String),
      check_card e1 e2 t cc ≠
        .jsonResp 500 false cc "ERROR" "Failed to process card" t) ∧
    (∀ (e1 e2 e2' : WCEnv) (t : Int) (cc : String),
      check_card e1 e2 t cc = check_card e1 e2' t cc) := by
  refine ⟨wc_ok_isSome, ?_, ?_⟩
  · intro e1 e2 t cc
    by_cases hfmt : cc = "" ∨ !(pyIn "|" cc)
    · rw [check_card_of_format_bad e1 e2 t cc hfmt]
      intro heq
      simp at heq
    · cases hw : worldpay_auth_with_cache e1 cc true with
      | error e =>
        rw [wc_error_shape hw] at hw
        rw [check_card_of_value_error e1 e2 t cc _ hfmt hw]
        intro heq
        simp at heq
      | ok p =>
        obtain ⟨o, st⟩ := p
        obtain ⟨r, rfl⟩ :=
          Option.isSome_iff_exists.mp (wc_ok_isSome e1 cc true o st hw)
        rw [check_card_of_quick_ok e1 e2 t cc r st hfmt hw]
        intro heq
        simp at heq
  · intro e1 e2 e2' t cc
    by_cases hfmt : cc = "" ∨ !(pyIn "|" cc)
    · rw [check_card_of_format_bad e1 e2 t cc hfmt,
        check_card_of_format_bad e1 e2' t cc hfmt]
    · cases hw : worldpay_auth_with_cache e1 cc true with
      | error e =>
        rw [wc_error_shape hw] at hw
        rw [check_card_of_value_error e1 e2 t cc _ hfmt hw,
          check_card_of_value_error e1 e2' t cc _ hfmt hw]
      | ok p =>
        obtain ⟨o, st⟩ := p
        obtain ⟨r, rfl⟩ :=
          Option.isSome_iff_exists.mp (wc_ok_isSome e1 cc true o st hw)
        rw [check_card_of_quick_ok e1 e2 t cc r st hfmt hw,
          check_card_of_quick_ok e1 e2' t cc r st hfmt hw]

/-- Witness for C9: the value returned by a concrete invocation is `some`. -/
theorem c9_no_none_result_witness :
    (some (("error", "Request 1 failed")) : Option (String × String)).isSome
      = true :=
  c9_no_none_result.1 (exWCEnv 500) "4111x12x25x123" true
    (some ("error", "Request 1 failed")) (SessionCache.init exDisk) rfl

/-- C6 (code bug): for the empty `cc` the handler raises
`HTTPException(400)`, but its own `except Exception` clause catches it, so
the endpoint actually answers with a 500 JSON error response instead of
HTTP 400 (the checking flow is indeed not started).  This theorem evaluates
the endpoint at the failing input. -/
theorem c6_check_card_bad_format_eval :
    check_card (exWCEnv 500) (exWCEnv 500) 0 "" =
      .jsonResp 500 false "" "ERROR"
        "400: Invalid card format. Use: card_number|exp_month|exp_year|cvv" 0
    := rfl
